import Mathlib

/-!
Shallow embedding of the `RealtimeClient` orchestrator (src/unnamed/part_000,
the `client.ts` module of thivy/openai-realtime-api-beta) together with the
minimal interface of its collaborators (`RealtimeConversation`, `RealtimeAPI`,
`RealtimeUtils`), which are imported by the client but whose source files are
not part of this repository snapshot; those are modelled from the spec and so
marked.  Every command the client sends over the transport
(`this.realtime.send(...)`) is recorded in an outbound-command trace, state
mutations on `this` are explicit state passing, and JS `throw` is an
`Except.error` result (mutations and sends that happened before the throw are
kept, matching JS semantics).
-/

namespace Realtime

/-- A JSON value, for tool-call arguments and results.  `JSON.parse` and
`JSON.stringify` are JavaScript runtime primitives, not repository code, so
operations that use them take them as function parameters. -/
inductive Json where
  | null : Json
  | bool (b : Bool) : Json
  | num (n : Int) : Json
  | str (s : String) : Json
  | arr (elems : List Json) : Json
  | obj (fields : List (String × Json)) : Json

/-- `type` field of a conversation item (`"message" | "function_call" |
"function_call_output"` in the source). -/
inductive ItemKind where
  | message
  | function_call
  | function_call_output
deriving DecidableEq, Repr

/-- `role` of a message item. -/
inductive Role where
  | system
  | user
  | assistant
deriving DecidableEq, Repr

/-- `status` of an item (`ItemStatusType` in the source). -/
inductive ItemStatus where
  | in_progress
  | completed
  | incomplete
deriving DecidableEq, Repr

/-- `type` of a content part (`input_text`, `input_audio`, `text`, `audio`). -/
inductive ContentKind where
  | input_text
  | input_audio
  | text
  | audio
deriving DecidableEq, Repr

/-- The `audio` field of a content part: absent, a base64 string, or raw
binary (`ArrayBuffer` / `Int16Array` samples). -/
inductive AudioField where
  | absent
  | b64 (s : String)
  | raw (samples : List Int)
deriving DecidableEq, Repr

/-- One content part of an item. -/
structure ContentPart where
  type : ContentKind
  text : Option String := none
  audio : AudioField := AudioField.absent
  transcript : Option String := none
deriving DecidableEq, Repr

/-- Tool descriptor synthesized on an item's formatted view
(`FormattedToolType` in the source). -/
structure FormattedTool where
  name : String
  call_id : String
  arguments : String
deriving DecidableEq, Repr

/-- A conversation item, with the fields the orchestrator reads: `id`,
`type`, `role`, `status`, `content`, and `formatted.tool`. -/
structure Item where
  id : String
  type : ItemKind
  role : Option Role := none
  status : ItemStatus := ItemStatus.in_progress
  content : List ContentPart := []
  formattedTool : Option FormattedTool := none
deriving DecidableEq, Repr

/-- `turn_detection` configuration (`TurnDetectionServerVadType`). -/
structure TurnDetection where
  threshold : ℚ := 1 / 2
  prefix_padding_ms : Nat := 300
  silence_duration_ms : Nat := 200

/-- `input_audio_transcription` configuration. -/
structure AudioTranscription where
  model : String := "whisper-1"

/-- A tool definition (`ToolDefinitionType`): `type` is optional in the
source and filled in with `"function"` when the tool list is assembled. -/
structure ToolDefinition where
  type : Option String := none
  name : String
  description : String := ""
  parameters : Json := Json.obj []

/-- `tool_choice` session field. -/
inductive ToolChoice where
  | mode (s : String)
  | function (name : String)

/-- `max_response_output_tokens` session field (`number | "inf"`). -/
inductive MaxTokens where
  | num (n : Nat)
  | inf

/-- The stored session configuration.  `_resetConfig` always populates every
field from `defaultSessionConfig`, so the stored form has no missing fields;
nullable fields (`input_audio_transcription`, `turn_detection`) are `Option`. -/
structure SessionConfig where
  modalities : List String
  instructions : String
  voice : String
  input_audio_format : String
  output_audio_format : String
  input_audio_transcription : Option AudioTranscription
  turn_detection : Option TurnDetection
  tools : List ToolDefinition
  tool_choice : ToolChoice
  temperature : ℚ
  max_response_output_tokens : MaxTokens

/-- `this.defaultSessionConfig` from the constructor. -/
def defaultSessionConfig : SessionConfig where
  modalities := ["text", "audio"]
  instructions := ""
  voice := "alloy"
  input_audio_format := "pcm16"
  output_audio_format := "pcm16"
  input_audio_transcription := none
  turn_detection := none
  tools := []
  tool_choice := ToolChoice.mode "auto"
  temperature := 4 / 5
  max_response_output_tokens := MaxTokens.num 4096

/-- The partial configuration accepted by `updateSession`: each destructured
parameter defaults to `void 0`, the "unset" sentinel, modelled as the outer
`none`. -/
structure SessionUpdateParams where
  modalities : Option (List String) := none
  instructions : Option String := none
  voice : Option String := none
  input_audio_format : Option String := none
  output_audio_format : Option String := none
  input_audio_transcription : Option (Option AudioTranscription) := none
  turn_detection : Option (Option TurnDetection) := none
  tools : Option (List ToolDefinition) := none
  tool_choice : Option ToolChoice := none
  temperature : Option ℚ := none
  max_response_output_tokens : Option MaxTokens := none

/-- A registered tool: definition plus handler.  The handler is a function
from parsed JSON arguments to a result, or a thrown error message. -/
structure ToolRegEntry where
  definition : ToolDefinition
  handler : Json → Except String Json

/-- The second argument of `addTool` before the `typeof handler !==
'function'` check: either an actual function or some non-callable value. -/
inductive HandlerArg where
  | func (f : Json → Except String Json)
  | notFunc

/-- Modelled from the spec: the Conversation Assembler state the orchestrator
touches (`conversation.ts` is not in this snapshot).  An ordered item
collection with lookup by id, the Queued Input Audio FIFO appended to by
`queueInputAudio`, and the fixed audio sample rate `defaultFrequency` shared
by the truncation-timestamp math. -/
structure ConversationState where
  items : List Item
  queuedInputAudio : List (List Int)
  defaultFrequency : Nat

/-- Modelled from the spec: `conversation.getItem(id)`, the lookup by id. -/
def getItem (conv : ConversationState) (id : String) : Option Item :=
  conv.items.find? (fun i => i.id == id)

/-- Modelled from the spec: `conversation.clear()` empties the item
collection and lookup (used on disconnect). -/
def clearConversation (conv : ConversationState) : ConversationState :=
  { conv with items := [] }

/-- The full client state: session configuration, tool registry (an
insertion-ordered name-keyed object), input audio buffer, the conversation,
and the transport connectivity flag (`realtime.isConnected()`, modelled from
the spec since `api.ts` is not in this snapshot). -/
structure ClientState where
  sessionConfig : SessionConfig
  tools : List (String × ToolRegEntry)
  inputAudioBuffer : List Int
  conversation : ConversationState
  connected : Bool
  sessionCreated : Bool

/-- An item payload carried by a `conversation.item.create` command. -/
inductive OutboundItem where
  | message (role : Role) (content : List ContentPart)
  | functionCallOutput (call_id : String) (output : String)

/-- One outbound command handed to `this.realtime.send`. -/
inductive Command where
  | sessionUpdate (session : SessionConfig)
  | inputAudioBufferAppend (audio : String)
  | inputAudioBufferCommit
  | responseCreate
  | responseCancel
  | conversationItemCreate (item : OutboundItem)
  | conversationItemDelete (itemId : String)
  | conversationItemTruncate (itemId : String) (contentIndex : Nat) (audioEndMs : Nat)

/-- Result of running one client operation: the JS return value or thrown
error, the state of `this` afterwards (mutations before a throw persist), and
the outbound commands sent, in order (sends before a throw persist). -/
structure StepResult (α : Type) where
  res : Except String α
  state : ClientState
  sent : List Command

/-- Modelled from the spec: `RealtimeUtils.arrayBufferToBase64`, the pure
binary-to-base64 codec helper (`utils.ts` is not in this snapshot); an
injective stand-in encoding. -/
def arrayBufferToBase64 (samples : List Int) : String :=
  String.intercalate "," (samples.map toString)

/-- Modelled from the spec: `RealtimeUtils.mergeInt16Arrays`, concatenation
of two sample sequences into one. -/
def mergeInt16Arrays (a b : List Int) : List Int :=
  a ++ b

/-- `byteLength` of an `Int16Array`: two bytes per sample. -/
def byteLength (samples : List Int) : Nat :=
  2 * samples.length

/-- Lookup `this.tools[name]` in the registry object. -/
def lookupTool (tools : List (String × ToolRegEntry)) (name : String) :
    Option ToolRegEntry :=
  (tools.find? (fun e => e.1 == name)).map (fun e => e.2)

/-- `_resetConfig`: resets `sessionCreated`, the tool registry, the session
configuration (deep copy of the defaults) and the input audio buffer. -/
def resetConfig (st : ClientState) : ClientState :=
  { st with
    sessionCreated := false
    tools := []
    sessionConfig := defaultSessionConfig
    inputAudioBuffer := [] }

/-- `getTurnDetectionType()`: `this.sessionConfig.turn_detection?.type ||
null`; the only inhabited type value is `"server_vad"`. -/
def getTurnDetectionType (st : ClientState) : Option String :=
  st.sessionConfig.turn_detection.map (fun _ => "server_vad")

/-- `createResponse()`: when no turn-detection mode is active and the input
audio buffer is non-empty, sends `input_audio_buffer.commit`, queues the
buffered samples on the conversation, and empties the buffer; then always
sends `response.create` and returns `true`. -/
def createResponse (st : ClientState) : StepResult Bool :=
  if getTurnDetectionType st = none ∧ byteLength st.inputAudioBuffer > 0 then
    let conv := st.conversation
    let conv' := { conv with
      queuedInputAudio := conv.queuedInputAudio ++ [st.inputAudioBuffer] }
    let st' := { st with conversation := conv', inputAudioBuffer := [] }
    ⟨Except.ok true, st', [Command.inputAudioBufferCommit, Command.responseCreate]⟩
  else
    ⟨Except.ok true, st, [Command.responseCreate]⟩

/-- `Math.floor((sampleCount / defaultFrequency) * 1000)` under exact
rational arithmetic: natural floor division. -/
def audioEndMs (sampleCount freq : Nat) : Nat :=
  sampleCount * 1000 / freq

/-- `cancelResponse(id, sampleCount)`: with a falsy id, a bare
`response.cancel`; otherwise looks the item up (must be an assistant
message), sends `response.cancel`, finds the first audio content part (must
exist) and sends `conversation.item.truncate`. -/
def cancelResponse (st : ClientState) (id : String) (sampleCount : Nat) :
    StepResult (Option Item) :=
  if id = "" then
    ⟨Except.ok none, st, [Command.responseCancel]⟩
  else
    match getItem st.conversation id with
    | none => ⟨Except.error ("Could not find item \"" ++ id ++ "\""), st, []⟩
    | some item =>
      if item.type ≠ ItemKind.message then
        ⟨Except.error "Can only cancelResponse messages with type \"message\"", st, []⟩
      else if item.role ≠ some Role.assistant then
        ⟨Except.error "Can only cancelResponse messages with role \"assistant\"", st, []⟩
      else
        match item.content.findIdx? (fun c => c.type == ContentKind.audio) with
        | none =>
          ⟨Except.error "Could not find audio on item to cancel", st,
            [Command.responseCancel]⟩
        | some audioIndex =>
          ⟨Except.ok (some item), st,
            [Command.responseCancel,
             Command.conversationItemTruncate id audioIndex
               (audioEndMs sampleCount st.conversation.defaultFrequency)]⟩

/-- `{ type: 'function', ...toolDefinition }`: the spread keeps an explicit
`type` from the definition and fills in `"function"` otherwise. -/
def withFunctionType (t : ToolDefinition) : ToolDefinition :=
  { t with type := some (t.type.getD "function") }

/-- The `(tools || []).map(...)` loop of `updateSession`: decorates each
inline tool with its function type and throws on the first name already
present in the registry. -/
def checkInlineTools (registered : List (String × ToolRegEntry)) :
    List ToolDefinition → Except String (List ToolDefinition)
  | [] => Except.ok []
  | t :: ts =>
    let d := withFunctionType t
    if (lookupTool registered d.name).isSome then
      Except.error ("Tool \"" ++ d.name ++ "\" has already been defined")
    else
      match checkInlineTools registered ts with
      | Except.error msg => Except.error msg
      | Except.ok rest => Except.ok (d :: rest)

/-- The field-by-field merge at the top of `updateSession`: each parameter
that is not the `void 0` sentinel overwrites the stored field. -/
def mergeSessionConfig (cfg : SessionConfig) (p : SessionUpdateParams) :
    SessionConfig where
  modalities := p.modalities.getD cfg.modalities
  instructions := p.instructions.getD cfg.instructions
  voice := p.voice.getD cfg.voice
  input_audio_format := p.input_audio_format.getD cfg.input_audio_format
  output_audio_format := p.output_audio_format.getD cfg.output_audio_format
  input_audio_transcription :=
    p.input_audio_transcription.getD cfg.input_audio_transcription
  turn_detection := p.turn_detection.getD cfg.turn_detection
  tools := p.tools.getD cfg.tools
  tool_choice := p.tool_choice.getD cfg.tool_choice
  temperature := p.temperature.getD cfg.temperature
  max_response_output_tokens :=
    p.max_response_output_tokens.getD cfg.max_response_output_tokens

/-- `updateSession(partial)`: merges the provided fields, assembles the
effective tool list from inline tools (duplicates against the registry
throw, after the merge already happened) plus registered tools, and sends
`session.update` only when the transport is connected. -/
def updateSession (st : ClientState) (p : SessionUpdateParams) :
    StepResult Bool :=
  let cfg := mergeSessionConfig st.sessionConfig p
  let st' := { st with sessionConfig := cfg }
  match checkInlineTools st.tools (p.tools.getD []) with
  | Except.error msg => ⟨Except.error msg, st', []⟩
  | Except.ok inline =>
    let useTools :=
      inline ++ st.tools.map (fun e => withFunctionType e.2.definition)
    let session := { cfg with tools := useTools }
    ⟨Except.ok true, st',
      if st.connected then [Command.sessionUpdate session] else []⟩

/-- `addTool(definition, handler)`: validates a present, non-empty name, no
duplicate registration and a callable handler, stores the tool, and triggers
`updateSession()`. -/
def addTool (st : ClientState) (defn : Option ToolDefinition)
    (handler : HandlerArg) : StepResult ToolRegEntry :=
  match defn with
  | none => ⟨Except.error "Missing tool name in definition", st, []⟩
  | some d =>
    if d.name = "" then
      ⟨Except.error "Missing tool name in definition", st, []⟩
    else if (lookupTool st.tools d.name).isSome then
      ⟨Except.error ("Tool \"" ++ d.name ++ "\" already added. Please use .removeTool(\""
          ++ d.name ++ "\") before trying to add again."), st, []⟩
    else
      match handler with
      | HandlerArg.notFunc =>
        ⟨Except.error ("Tool \"" ++ d.name ++ "\" handler must be a function"), st, []⟩
      | HandlerArg.func f =>
        let entry : ToolRegEntry := ⟨d, f⟩
        let st' := { st with tools := st.tools ++ [(d.name, entry)] }
        let u := updateSession st' {}
        ⟨Except.ok entry, u.state, u.sent⟩

/-- `removeTool(name)`: fails when absent, otherwise deletes the registry
entry and returns `true`; sends nothing. -/
def removeTool (st : ClientState) (name : String) : StepResult Bool :=
  if (lookupTool st.tools name).isSome then
    ⟨Except.ok true, { st with tools := st.tools.filter (fun e => e.1 != name) }, []⟩
  else
    ⟨Except.error ("Tool \"" ++ name ++ "\" does not exist, can not be removed."), st, []⟩

/-- `deleteItem(id)`: sends `conversation.item.delete`. -/
def deleteItem (st : ClientState) (id : String) : StepResult Bool :=
  ⟨Except.ok true, st, [Command.conversationItemDelete id]⟩

/-- The per-part encoding loop of `sendUserMessageContent`: an `input_audio`
part holding raw binary gets base64-encoded. -/
def encodeAudioContent (c : ContentPart) : ContentPart :=
  if c.type = ContentKind.input_audio then
    match c.audio with
    | AudioField.raw samples =>
      { c with audio := AudioField.b64 (arrayBufferToBase64 samples) }
    | _ => c
  else c

/-- `sendUserMessageContent(content)`: encodes raw audio parts, sends
`conversation.item.create` with a user message only when the content list is
non-empty, then always calls `createResponse()`. -/
def sendUserMessageContent (st : ClientState) (content : List ContentPart) :
    StepResult Bool :=
  let cmds :=
    if content.length ≠ 0 then
      [Command.conversationItemCreate
        (OutboundItem.message Role.user (content.map encodeAudioContent))]
    else []
  let r := createResponse st
  ⟨Except.ok true, r.state, cmds ++ r.sent⟩

/-- `appendInputAudio(arrayBuffer)`: no-op on an empty buffer, otherwise
sends `input_audio_buffer.append` with the base64 payload and concatenates
onto the local input audio buffer. -/
def appendInputAudio (st : ClientState) (buf : List Int) : StepResult Bool :=
  if byteLength buf > 0 then
    ⟨Except.ok true,
      { st with inputAudioBuffer := mergeInt16Arrays st.inputAudioBuffer buf },
      [Command.inputAudioBufferAppend (arrayBufferToBase64 buf)]⟩
  else
    ⟨Except.ok true, st, []⟩

/-- `disconnect()`: clears `sessionCreated`, drops the transport connection
and clears the conversation history.  It does not touch the input audio
buffer. -/
def disconnect (st : ClientState) : ClientState :=
  { st with
    sessionCreated := false
    connected := false
    conversation := clearConversation st.conversation }

/-- `reset()`: disconnects and resets the configuration (the event-handler
bookkeeping it also redoes has no observable state here). -/
def resetClient (st : ClientState) : ClientState :=
  resetConfig (disconnect st)

/-- `connect()`: fails when already connected, otherwise connects and runs
`updateSession()` with no arguments. -/
def connect (st : ClientState) : StepResult Bool :=
  if st.connected then
    ⟨Except.error "Already connected, use .disconnect() first", st, []⟩
  else
    let st' := { st with connected := true }
    let u := updateSession st' {}
    ⟨Except.ok true, u.state, u.sent⟩

/-- The error payload `JSON.stringify({error: e.message})` sent as a
function-call output. -/
def errorOutputCmd (stringifyF : Json → String) (tool : FormattedTool)
    (msg : String) : Command :=
  Command.conversationItemCreate
    (OutboundItem.functionCallOutput tool.call_id
      (stringifyF (Json.obj [("error", Json.str msg)])))

/-- `callTool(tool)`: parses the accumulated arguments, looks up and invokes
the handler (a missing handler throws inside the try, becoming an error
payload), sends exactly one `function_call_output` item-create with either
the serialized result or the error payload, then always calls
`createResponse()`. -/
def callTool (parse : String → Except String Json)
    (stringifyF : Json → String) (st : ClientState) (tool : FormattedTool) :
    StepResult Bool :=
  let outCmd :=
    match parse tool.arguments with
    | Except.error msg => errorOutputCmd stringifyF tool msg
    | Except.ok args =>
      match lookupTool st.tools tool.name with
      | none =>
        errorOutputCmd stringifyF tool
          ("Tool \"" ++ tool.name ++ "\" has not been added")
      | some tc =>
        match tc.handler args with
        | Except.ok result =>
          Command.conversationItemCreate
            (OutboundItem.functionCallOutput tool.call_id (stringifyF result))
        | Except.error msg => errorOutputCmd stringifyF tool msg
  let r := createResponse st
  ⟨r.res, r.state, outCmd :: r.sent⟩

/-- Modelled from the spec: the `server.response.output_item.done` handler,
given the item the Assembler's `processEvent` (in `conversation.ts`, not in
this snapshot) yielded for the event; when the item's formatted view holds a
tool descriptor, `callTool` runs. -/
def onOutputItemDone (parse : String → Except String Json)
    (stringifyF : Json → String) (st : ClientState) (item : Item) :
    StepResult Bool :=
  match item.formattedTool with
  | some tool => callTool parse stringifyF st tool
  | none => ⟨Except.ok true, st, []⟩

/-- The public operations of the client, for stating trace invariants. -/
inductive ClientOp where
  | createResponseOp
  | cancelResponseOp (id : String) (sampleCount : Nat)
  | addToolOp (d : Option ToolDefinition) (h : HandlerArg)
  | removeToolOp (name : String)
  | deleteItemOp (id : String)
  | updateSessionOp (p : SessionUpdateParams)
  | sendUserMessageContentOp (content : List ContentPart)
  | appendInputAudioOp (buf : List Int)
  | disconnectOp
  | resetOp
  | connectOp
  | callToolOp (parse : String → Except String Json)
      (stringifyF : Json → String) (tool : FormattedTool)

/-- The state reached by one public operation. -/
def applyOp (op : ClientOp) (st : ClientState) : ClientState :=
  match op with
  | ClientOp.createResponseOp => (createResponse st).state
  | ClientOp.cancelResponseOp id sc => (cancelResponse st id sc).state
  | ClientOp.addToolOp d h => (addTool st d h).state
  | ClientOp.removeToolOp name => (removeTool st name).state
  | ClientOp.deleteItemOp id => (deleteItem st id).state
  | ClientOp.updateSessionOp p => (updateSession st p).state
  | ClientOp.sendUserMessageContentOp content =>
    (sendUserMessageContent st content).state
  | ClientOp.appendInputAudioOp buf => (appendInputAudio st buf).state
  | ClientOp.disconnectOp => disconnect st
  | ClientOp.resetOp => resetClient st
  | ClientOp.connectOp => (connect st).state
  | ClientOp.callToolOp parse strf tool => (callTool parse strf st tool).state

/-- Discriminator for `response.create` commands. -/
def isResponseCreate : Command → Bool
  | Command.responseCreate => true
  | _ => false

/-- Discriminator for `input_audio_buffer.commit` commands. -/
def isCommit : Command → Bool
  | Command.inputAudioBufferCommit => true
  | _ => false

/-- Discriminator for `conversation.item.create` commands carrying a
`function_call_output` item. -/
def isFunctionCallOutputCreate : Command → Bool
  | Command.conversationItemCreate (OutboundItem.functionCallOutput _ _) => true
  | _ => false

/-- Discriminator for `conversation.item.truncate` commands. -/
def isTruncate : Command → Bool
  | Command.conversationItemTruncate _ _ _ => true
  | _ => false

/-- Discriminator for `session.update` commands. -/
def isSessionUpdate : Command → Bool
  | Command.sessionUpdate _ => true
  | _ => false

/-- A freshly constructed, disconnected client (the state after the
constructor ran `_resetConfig`), with the protocol's 24 kHz PCM rate. -/
def baseState : ClientState where
  sessionConfig := defaultSessionConfig
  tools := []
  inputAudioBuffer := []
  conversation := { items := [], queuedInputAudio := [], defaultFrequency := 24000 }
  connected := false
  sessionCreated := false

/-- A client with staged input audio and no turn detection. -/
def stagedAudioState : ClientState :=
  { baseState with inputAudioBuffer := [1, 2, 3] }

/-- An assistant message item with a text part followed by an audio part. -/
def assistantAudioItem : Item where
  id := "item_1"
  type := ItemKind.message
  role := some Role.assistant
  status := ItemStatus.completed
  content :=
    [{ type := ContentKind.text, text := some "hello" },
     { type := ContentKind.audio, transcript := some "hello" }]

/-- An assistant message item with no audio content part. -/
def assistantTextItem : Item where
  id := "item_2"
  type := ItemKind.message
  role := some Role.assistant
  status := ItemStatus.completed
  content := [{ type := ContentKind.text, text := some "hi" }]

/-- A user message item. -/
def userItem : Item where
  id := "item_3"
  type := ItemKind.message
  role := some Role.user
  status := ItemStatus.completed
  content := [{ type := ContentKind.input_text, text := some "hi" }]

/-- A function-call item. -/
def functionCallItem : Item where
  id := "item_4"
  type := ItemKind.function_call
  status := ItemStatus.completed

/-- A connected client whose conversation holds the four sample items. -/
def populatedState : ClientState :=
  { baseState with
    connected := true
    conversation :=
      { items := [assistantAudioItem, assistantTextItem, userItem, functionCallItem]
        queuedInputAudio := []
        defaultFrequency := 24000 } }

/-- `byteLength` is positive exactly on non-empty sample lists. -/
theorem byteLength_pos_iff (l : List Int) : byteLength l > 0 ↔ l ≠ [] := by
  unfold byteLength
  constructor
  · intro h hnil
    simp [hnil] at h
  · intro h
    have hlen : l.length ≠ 0 := fun hh => h (List.length_eq_zero.mp hh)
    omega

/-- C1: `createResponse()` with no turn detection and a non-empty Input
Audio Buffer sends exactly one `input_audio_buffer.commit` before the
`response.create`, queues the buffered samples on the conversation and
empties the buffer; with turn detection active or an empty buffer it sends
no commit and queues nothing; in every case exactly one `response.create` is
sent and the call returns `true`. -/
theorem createResponse_commit_behavior (st : ClientState) :
    ((getTurnDetectionType st = none ∧ st.inputAudioBuffer ≠ []) →
      (createResponse st).sent =
          [Command.inputAudioBufferCommit, Command.responseCreate] ∧
        (createResponse st).state.inputAudioBuffer = [] ∧
        (createResponse st).state.conversation.queuedInputAudio =
          st.conversation.queuedInputAudio ++ [st.inputAudioBuffer]) ∧
    ((getTurnDetectionType st ≠ none ∨ st.inputAudioBuffer = []) →
      (createResponse st).sent = [Command.responseCreate] ∧
        (createResponse st).state = st) ∧
    (createResponse st).sent.countP isResponseCreate = 1 ∧
    (createResponse st).res = Except.ok true := by
  by_cases h : getTurnDetectionType st = none ∧ byteLength st.inputAudioBuffer > 0
  · unfold createResponse
    rw [if_pos h]
    refine ⟨fun _ => ⟨rfl, rfl, rfl⟩, ?_, rfl, rfl⟩
    rintro (hne | hempty)
    · exact absurd h.1 hne
    · exact absurd h.2 (by simp [byteLength, hempty])
  · unfold createResponse
    rw [if_neg h]
    refine ⟨?_, fun _ => ⟨rfl, rfl⟩, rfl, rfl⟩
    rintro ⟨htd, hne⟩
    exact absurd ⟨htd, (byteLength_pos_iff st.inputAudioBuffer).mpr hne⟩ h

/-- C1 witness: on a concrete staged-audio client the commit precedes the
response-create and the buffer is emptied. -/
theorem createResponse_commit_behavior_witness :
    (createResponse stagedAudioState).sent =
        [Command.inputAudioBufferCommit, Command.responseCreate] ∧
      (createResponse stagedAudioState).state.inputAudioBuffer = [] ∧
      (createResponse stagedAudioState).res = Except.ok true := by
  have h := createResponse_commit_behavior stagedAudioState
  exact ⟨(h.1 ⟨rfl, by simp [stagedAudioState]⟩).1,
    (h.1 ⟨rfl, by simp [stagedAudioState]⟩).2.1, h.2.2.2⟩

/-- C2: `cancelResponse(id, sampleCount)` on an existing assistant message
item with an audio content part sends `response.cancel` followed by a
`conversation.item.truncate` whose `content_index` is the index of the first
audio part and whose `audio_end_ms` is `floor(sampleCount / sampleRate *
1000)`, and returns the looked-up item. -/
theorem cancelResponse_truncate_spec (st : ClientState) (id : String)
    (sc : Nat) (item : Item) (k : Nat)
    (hid : id ≠ "")
    (hitem : getItem st.conversation id = some item)
    (htype : item.type = ItemKind.message)
    (hrole : item.role = some Role.assistant)
    (hidx : item.content.findIdx? (fun c => c.type == ContentKind.audio) = some k) :
    (cancelResponse st id sc).sent =
        [Command.responseCancel,
         Command.conversationItemTruncate id k
           (audioEndMs sc st.conversation.defaultFrequency)] ∧
      (cancelResponse st id sc).res = Except.ok (some item) ∧
      audioEndMs sc st.conversation.defaultFrequency =
        Nat.floor ((sc : ℚ) / (st.conversation.defaultFrequency : ℚ) * 1000) := by
  have hres : cancelResponse st id sc =
      ⟨Except.ok (some item), st,
        [Command.responseCancel,
         Command.conversationItemTruncate id k
           (audioEndMs sc st.conversation.defaultFrequency)]⟩ := by
    unfold cancelResponse
    rw [if_neg hid]
    simp [hitem, htype, hrole, hidx]
  have hfloor : audioEndMs sc st.conversation.defaultFrequency =
      Nat.floor ((sc : ℚ) / (st.conversation.defaultFrequency : ℚ) * 1000) := by
    have hcast : (sc : ℚ) / (st.conversation.defaultFrequency : ℚ) * 1000 =
        ((sc * 1000 : ℕ) : ℚ) / (st.conversation.defaultFrequency : ℚ) := by
      push_cast
      ring
    rw [hcast, Nat.floor_div_eq_div]
    rfl
  exact ⟨by rw [hres], by rw [hres], hfloor⟩

/-- C2 witness: truncating the sample assistant audio item at 48000 samples
of 24 kHz audio yields a truncate at content index 1 with
`audio_end_ms = 2000`. -/
theorem cancelResponse_truncate_spec_witness :
    (cancelResponse populatedState "item_1" 48000).sent =
        [Command.responseCancel,
         Command.conversationItemTruncate "item_1" 1 2000] ∧
      (cancelResponse populatedState "item_1" 48000).res =
        Except.ok (some assistantAudioItem) := by
  have h := cancelResponse_truncate_spec populatedState "item_1" 48000
    assistantAudioItem 1 (by decide) (by decide) (by decide) (by decide) (by decide)
  exact ⟨h.1, h.2.1⟩

/-- C4: `cancelResponse` with no id sends a bare `response.cancel` and
returns a null item; with an id naming a missing item, a non-message item,
or a non-assistant message it throws the corresponding error synchronously
and sends nothing, in particular no truncate. -/
theorem cancelResponse_precondition_errors (st : ClientState) (id : String)
    (sc : Nat) :
    ((cancelResponse st "" sc).res = Except.ok none ∧
      (cancelResponse st "" sc).sent = [Command.responseCancel] ∧
      (cancelResponse st "" sc).state = st) ∧
    (id ≠ "" → getItem st.conversation id = none →
      (cancelResponse st id sc).res =
          Except.error ("Could not find item \"" ++ id ++ "\"") ∧
        (cancelResponse st id sc).sent = []) ∧
    (∀ item, id ≠ "" → getItem st.conversation id = some item →
      item.type ≠ ItemKind.message →
      (cancelResponse st id sc).res =
          Except.error "Can only cancelResponse messages with type \"message\"" ∧
        (cancelResponse st id sc).sent = []) ∧
    (∀ item, id ≠ "" → getItem st.conversation id = some item →
      item.type = ItemKind.message → item.role ≠ some Role.assistant →
      (cancelResponse st id sc).res =
          Except.error "Can only cancelResponse messages with role \"assistant\"" ∧
        (cancelResponse st id sc).sent = []) := by
  refine ⟨⟨?_, ?_, ?_⟩, ?_, ?_, ?_⟩
  · rfl
  · rfl
  · rfl
  · intro hid hnone
    unfold cancelResponse
    rw [if_neg hid]
    simp [hnone]
  · intro item hid hitem htype
    unfold cancelResponse
    rw [if_neg hid]
    simp [hitem, htype]
  · intro item hid hitem htype hrole
    unfold cancelResponse
    rw [if_neg hid]
    simp [hitem, htype, hrole]

/-- C4 witness: on the sample conversation, the bare cancel, the missing
item, the function-call item and the user message item each behave as
claimed. -/
theorem cancelResponse_precondition_errors_witness :
    (cancelResponse populatedState "" 0).res = Except.ok none ∧
      (cancelResponse populatedState "nope" 0).res =
        Except.error "Could not find item \"nope\"" ∧
      (cancelResponse populatedState "item_4" 0).sent = [] ∧
      (cancelResponse populatedState "item_3" 0).sent = [] := by
  refine ⟨(cancelResponse_precondition_errors populatedState "x" 0).1.1, ?_, ?_, ?_⟩
  · exact ((cancelResponse_precondition_errors populatedState "nope" 0).2.1
      (by decide) (by decide)).1
  · exact ((cancelResponse_precondition_errors populatedState "item_4" 0).2.2.1
      functionCallItem (by decide) (by decide) (by decide)).2
  · exact ((cancelResponse_precondition_errors populatedState "item_3" 0).2.2.2
      userItem (by decide) (by decide) (by decide) (by decide)).2

/-- C9: when the looked-up item is an assistant message without an audio
content part, the `response.cancel` command has already been sent before the
missing-audio error is thrown: the failure is not atomic with respect to
outbound commands. -/
theorem cancelResponse_cancel_sent_before_audio_error (st : ClientState)
    (id : String) (sc : Nat) (item : Item)
    (hid : id ≠ "")
    (hitem : getItem st.conversation id = some item)
    (htype : item.type = ItemKind.message)
    (hrole : item.role = some Role.assistant)
    (hidx : item.content.findIdx? (fun c => c.type == ContentKind.audio) = none) :
    (cancelResponse st id sc).res =
        Except.error "Could not find audio on item to cancel" ∧
      (cancelResponse st id sc).sent = [Command.responseCancel] := by
  unfold cancelResponse
  rw [if_neg hid]
  simp [hitem, htype, hrole, hidx]

/-- C9 witness: cancelling the audio-less assistant message item of the
sample conversation throws the missing-audio error with the cancel command
already sent. -/
theorem cancelResponse_cancel_sent_before_audio_error_witness :
    (cancelResponse populatedState "item_2" 0).res =
        Except.error "Could not find audio on item to cancel" ∧
      (cancelResponse populatedState "item_2" 0).sent = [Command.responseCancel] :=
  cancelResponse_cancel_sent_before_audio_error populatedState "item_2" 0
    assistantTextItem (by decide) (by decide) (by decide) (by decide) (by decide)

/-- Deleting a registry key removes every binding of that name. -/
theorem lookupTool_filter_ne (tools : List (String × ToolRegEntry))
    (name : String) :
    lookupTool (tools.filter (fun e => e.1 != name)) name = none := by
  unfold lookupTool
  induction tools with
  | nil => rfl
  | cons a l ih =>
    cases h : a.1 == name with
    | true => simp [List.filter_cons, bne, h, ih]
    | false => simp [List.filter_cons, bne, h, List.find?_cons, ih]

/-- `updateSession()` with no arguments merges nothing and sends the stored
configuration with the registered tool list, only when connected. -/
theorem updateSession_no_params (st : ClientState) :
    updateSession st {} =
      ⟨Except.ok true, st,
        if st.connected then
          [Command.sessionUpdate
            { st.sessionConfig with
              tools := st.tools.map (fun e => withFunctionType e.2.definition) }]
        else []⟩ :=
  rfl

/-- The result value of a successful `addTool`. -/
theorem addTool_ok_res (st : ClientState) (d : ToolDefinition)
    (g : Json → Except String Json) (hn : d.name ≠ "")
    (hlk : lookupTool st.tools d.name = none) :
    (addTool st (some d) (HandlerArg.func g)).res = Except.ok ⟨d, g⟩ := by
  simp only [addTool]
  rw [if_neg hn, if_neg (by simp [hlk])]

/-- C5: `addTool` fails on a missing or empty name, on a duplicate name, and
on a non-callable handler; otherwise it stores the tool and triggers a
session update (sent exactly when connected).  `removeTool` fails on an
unregistered name and otherwise deletes the entry.  A duplicate-failing
`addTool` leaves the registry unchanged so retrying still fails, and after
`removeTool` of a name, `addTool` with that name succeeds. -/
theorem addTool_removeTool_registry_spec (st : ClientState)
    (d : ToolDefinition) (name : String) (h : HandlerArg)
    (f g : Json → Except String Json) :
    ((addTool st none h).res = Except.error "Missing tool name in definition" ∧
      (addTool st none h).state = st ∧ (addTool st none h).sent = []) ∧
    (d.name = "" →
      (addTool st (some d) h).res = Except.error "Missing tool name in definition" ∧
        (addTool st (some d) h).state = st) ∧
    (d.name ≠ "" → (lookupTool st.tools d.name).isSome = true →
      (addTool st (some d) h).res =
          Except.error ("Tool \"" ++ d.name ++ "\" already added. Please use .removeTool(\""
            ++ d.name ++ "\") before trying to add again.") ∧
        (addTool st (some d) h).state = st) ∧
    (d.name ≠ "" → lookupTool st.tools d.name = none →
      (addTool st (some d) HandlerArg.notFunc).res =
        Except.error ("Tool \"" ++ d.name ++ "\" handler must be a function")) ∧
    (d.name ≠ "" → lookupTool st.tools d.name = none →
      (addTool st (some d) (HandlerArg.func f)).res = Except.ok ⟨d, f⟩ ∧
        (addTool st (some d) (HandlerArg.func f)).state.tools =
          st.tools ++ [(d.name, ⟨d, f⟩)] ∧
        (addTool st (some d) (HandlerArg.func f)).sent =
          (if st.connected then
            [Command.sessionUpdate
              { st.sessionConfig with
                tools := (st.tools ++ [(d.name, (⟨d, f⟩ : ToolRegEntry))]).map
                  (fun e => withFunctionType e.2.definition) }]
           else [])) ∧
    (lookupTool st.tools name = none →
      (removeTool st name).res =
        Except.error ("Tool \"" ++ name ++ "\" does not exist, can not be removed.")) ∧
    ((lookupTool st.tools name).isSome = true →
      (removeTool st name).res = Except.ok true ∧
        (removeTool st name).state.tools =
          st.tools.filter (fun e => e.1 != name)) ∧
    (d.name ≠ "" → (lookupTool st.tools d.name).isSome = true →
      (addTool (addTool st (some d) h).state (some d) h).res =
        Except.error ("Tool \"" ++ d.name ++ "\" already added. Please use .removeTool(\""
          ++ d.name ++ "\") before trying to add again.")) ∧
    (d.name ≠ "" →
      (addTool (removeTool st d.name).state (some d) (HandlerArg.func g)).res =
        Except.ok ⟨d, g⟩) := by
  have hdup : ∀ st' : ClientState, d.name ≠ "" →
      (lookupTool st'.tools d.name).isSome = true →
      (addTool st' (some d) h).res =
          Except.error ("Tool \"" ++ d.name ++ "\" already added. Please use .removeTool(\""
            ++ d.name ++ "\") before trying to add again.") ∧
        (addTool st' (some d) h).state = st' := by
    intro st' hn hlk
    simp only [addTool]
    rw [if_neg hn, if_pos hlk]
    exact ⟨rfl, rfl⟩
  refine ⟨⟨rfl, rfl, rfl⟩, ?_, hdup st, ?_, ?_, ?_, ?_, ?_, ?_⟩
  · intro hn
    simp only [addTool]
    rw [if_pos hn]
    exact ⟨rfl, rfl⟩
  · intro hn hlk
    simp only [addTool]
    rw [if_neg hn, if_neg (by simp [hlk])]
  · intro hn hlk
    refine ⟨addTool_ok_res st d f hn hlk, ?_, ?_⟩
    · simp only [addTool]
      rw [if_neg hn, if_neg (by simp [hlk])]
      rfl
    · simp only [addTool]
      rw [if_neg hn, if_neg (by simp [hlk])]
      rfl
  · intro hlk
    unfold removeTool
    rw [if_neg (by simp [hlk])]
  · intro hlk
    unfold removeTool
    rw [if_pos hlk]
    exact ⟨rfl, rfl⟩
  · intro hn hlk
    rw [(hdup st hn hlk).2]
    exact (hdup st hn hlk).1
  · intro hn
    cases hlk : (lookupTool st.tools d.name).isSome with
    | true =>
      have hstate : (removeTool st d.name).state =
          { st with tools := st.tools.filter (fun e => e.1 != d.name) } := by
        unfold removeTool
        rw [if_pos hlk]
      rw [hstate]
      exact addTool_ok_res _ d g hn (lookupTool_filter_ne st.tools d.name)
    | false =>
      have hstate : (removeTool st d.name).state = st := by
        unfold removeTool
        rw [if_neg (by simp [hlk])]
      rw [hstate]
      exact addTool_ok_res st d g hn (by
        cases hx : lookupTool st.tools d.name with
        | none => rfl
        | some e => rw [hx] at hlk; simp at hlk)

/-- A sample tool definition and handler. -/
def sampleTool : ToolDefinition where
  name := "get_weather"
  description := "Weather lookup"

/-- A sample tool handler that always succeeds. -/
def sampleHandler : Json → Except String Json :=
  fun _ => Except.ok (Json.str "ok")

/-- A client with the sample tool registered. -/
def toolState : ClientState :=
  { baseState with tools := [("get_weather", ⟨sampleTool, sampleHandler⟩)] }

/-- C5 witness: registering the sample tool succeeds on an empty registry,
duplicates fail, removing an unregistered tool fails, and re-adding after
removal succeeds. -/
theorem addTool_removeTool_registry_spec_witness :
    (addTool baseState (some sampleTool) (HandlerArg.func sampleHandler)).res =
        Except.ok ⟨sampleTool, sampleHandler⟩ ∧
      (addTool toolState (some sampleTool) (HandlerArg.func sampleHandler)).res =
        Except.error "Tool \"get_weather\" already added. Please use .removeTool(\"get_weather\") before trying to add again." ∧
      (removeTool baseState "get_weather").res =
        Except.error "Tool \"get_weather\" does not exist, can not be removed." ∧
      (addTool (removeTool toolState "get_weather").state (some sampleTool)
          (HandlerArg.func sampleHandler)).res =
        Except.ok ⟨sampleTool, sampleHandler⟩ := by
  refine ⟨?_, ?_, ?_, ?_⟩
  · exact ((addTool_removeTool_registry_spec baseState sampleTool "x"
      (HandlerArg.func sampleHandler) sampleHandler sampleHandler).2.2.2.2.1
      (by decide) rfl).1
  · exact ((addTool_removeTool_registry_spec toolState sampleTool "x"
      (HandlerArg.func sampleHandler) sampleHandler sampleHandler).2.2.1
      (by decide) rfl).1
  · exact (addTool_removeTool_registry_spec baseState sampleTool "get_weather"
      (HandlerArg.func sampleHandler) sampleHandler sampleHandler).2.2.2.2.2.1 rfl
  · exact (addTool_removeTool_registry_spec toolState sampleTool "x"
      (HandlerArg.func sampleHandler) sampleHandler
      sampleHandler).2.2.2.2.2.2.2.2 (by decide)

/-- C10: a successful `removeTool(name)` only deletes the registry entry and
returns `true`: it sends no command, in particular no `session.update`, so
the server is not informed of the removal. -/
theorem removeTool_sends_no_session_update (st : ClientState) (name : String)
    (h : (lookupTool st.tools name).isSome = true) :
    (removeTool st name).res = Except.ok true ∧
      (removeTool st name).sent = [] ∧
      (removeTool st name).state =
        { st with tools := st.tools.filter (fun e => e.1 != name) } := by
  unfold removeTool
  rw [if_pos h]
  exact ⟨rfl, rfl, rfl⟩

/-- C10 witness: removing the sample registered tool returns `true` and
sends nothing. -/
theorem removeTool_sends_no_session_update_witness :
    (removeTool toolState "get_weather").res = Except.ok true ∧
      (removeTool toolState "get_weather").sent = [] := by
  have h := removeTool_sends_no_session_update toolState "get_weather" rfl
  exact ⟨h.1, h.2.1⟩

/-- The `{ type: 'function', ... }` spread leaves the tool name alone. -/
theorem withFunctionType_name (t : ToolDefinition) :
    (withFunctionType t).name = t.name :=
  rfl

/-- With no inline name registered, the inline-tool pass decorates each tool
with its function type. -/
theorem checkInlineTools_ok (reg : List (String × ToolRegEntry))
    (ts : List ToolDefinition)
    (h : ∀ t ∈ ts, lookupTool reg t.name = none) :
    checkInlineTools reg ts = Except.ok (ts.map withFunctionType) := by
  induction ts with
  | nil => rfl
  | cons t ts ih =>
    have h1 : lookupTool reg t.name = none := h t (by simp)
    have h2 : checkInlineTools reg ts = Except.ok (ts.map withFunctionType) :=
      ih (fun u hu => h u (by simp [hu]))
    simp [checkInlineTools, withFunctionType_name, h1, h2]

/-- An inline tool whose name is already registered makes the inline-tool
pass throw. -/
theorem checkInlineTools_error (reg : List (String × ToolRegEntry))
    (ts : List ToolDefinition)
    (h : ∃ t ∈ ts, (lookupTool reg t.name).isSome = true) :
    ∃ msg, checkInlineTools reg ts = Except.error msg := by
  induction ts with
  | nil => simp at h
  | cons t ts ih =>
    by_cases h1 : (lookupTool reg t.name).isSome = true
    · refine ⟨"Tool \"" ++ t.name ++ "\" has already been defined", ?_⟩
      simp [checkInlineTools, withFunctionType_name, h1]
    · rcases h with ⟨u, hu, hsome⟩
      rcases List.mem_cons.mp hu with rfl | hmem
      · exact absurd hsome h1
      · rcases ih ⟨u, hmem, hsome⟩ with ⟨msg, herr⟩
        exact ⟨msg, by simp [checkInlineTools, withFunctionType_name, h1, herr]⟩

/-- Whatever the inline tools do, `updateSession` leaves the client in the
merged-configuration state (the merge happens before any throw). -/
theorem updateSession_state (st : ClientState) (p : SessionUpdateParams) :
    (updateSession st p).state =
      { st with sessionConfig := mergeSessionConfig st.sessionConfig p } := by
  unfold updateSession
  cases h : checkInlineTools st.tools (p.tools.getD []) with
  | error msg => rfl
  | ok inline => rfl

/-- C6: `updateSession` writes exactly the non-sentinel fields into the
stored configuration, leaving every unspecified field unchanged; the sent
tool list is the union of inline and registered tools, with an inline name
duplicating a registered one raising an error; and the `session.update`
command goes out exactly when the transport is connected, the merged
configuration being retained either way. -/
theorem updateSession_merge_spec (st : ClientState) (p : SessionUpdateParams) :
    (updateSession st p).state.sessionConfig =
        mergeSessionConfig st.sessionConfig p ∧
      (updateSession st p).state.sessionConfig.modalities =
        p.modalities.getD st.sessionConfig.modalities ∧
      (updateSession st p).state.sessionConfig.instructions =
        p.instructions.getD st.sessionConfig.instructions ∧
      (updateSession st p).state.sessionConfig.voice =
        p.voice.getD st.sessionConfig.voice ∧
      (updateSession st p).state.sessionConfig.input_audio_format =
        p.input_audio_format.getD st.sessionConfig.input_audio_format ∧
      (updateSession st p).state.sessionConfig.output_audio_format =
        p.output_audio_format.getD st.sessionConfig.output_audio_format ∧
      (updateSession st p).state.sessionConfig.input_audio_transcription =
        p.input_audio_transcription.getD st.sessionConfig.input_audio_transcription ∧
      (updateSession st p).state.sessionConfig.turn_detection =
        p.turn_detection.getD st.sessionConfig.turn_detection ∧
      (updateSession st p).state.sessionConfig.tools =
        p.tools.getD st.sessionConfig.tools ∧
      (updateSession st p).state.sessionConfig.tool_choice =
        p.tool_choice.getD st.sessionConfig.tool_choice ∧
      (updateSession st p).state.sessionConfig.temperature =
        p.temperature.getD st.sessionConfig.temperature ∧
      (updateSession st p).state.sessionConfig.max_response_output_tokens =
        p.max_response_output_tokens.getD st.sessionConfig.max_response_output_tokens ∧
      ((∀ t ∈ p.tools.getD [], lookupTool st.tools t.name = none) →
        (updateSession st p).res = Except.ok true ∧
          (updateSession st p).sent =
            (if st.connected then
              [Command.sessionUpdate
                { mergeSessionConfig st.sessionConfig p with
                  tools := (p.tools.getD []).map withFunctionType ++
                    st.tools.map (fun e => withFunctionType e.2.definition) }]
             else [])) ∧
      ((∃ t ∈ p.tools.getD [], (lookupTool st.tools t.name).isSome = true) →
        ∃ msg, (updateSession st p).res = Except.error msg ∧
          (updateSession st p).sent = []) := by
  have hstate := updateSession_state st p
  have hcfg : (updateSession st p).state.sessionConfig =
      mergeSessionConfig st.sessionConfig p := by
    rw [hstate]
  refine ⟨hcfg, by simp [hcfg, mergeSessionConfig], by simp [hcfg, mergeSessionConfig],
    by simp [hcfg, mergeSessionConfig], by simp [hcfg, mergeSessionConfig],
    by simp [hcfg, mergeSessionConfig], by simp [hcfg, mergeSessionConfig],
    by simp [hcfg, mergeSessionConfig], by simp [hcfg, mergeSessionConfig],
    by simp [hcfg, mergeSessionConfig], by simp [hcfg, mergeSessionConfig],
    by simp [hcfg, mergeSessionConfig], ?_, ?_⟩
  · intro hok
    have hc := checkInlineTools_ok st.tools (p.tools.getD []) hok
    unfold updateSession
    rw [hc]
    exact ⟨rfl, rfl⟩
  · intro hex
    rcases checkInlineTools_error st.tools (p.tools.getD []) hex with ⟨msg, herr⟩
    refine ⟨msg, ?_, ?_⟩
    · unfold updateSession
      rw [herr]
    · unfold updateSession
      rw [herr]

/-- A connected client with the default configuration. -/
def connectedState : ClientState :=
  { baseState with connected := true }

/-- A second sample tool, passed inline to `updateSession`. -/
def sampleTool2 : ToolDefinition where
  name := "lookup"
  description := "Lookup"

/-- A partial session update: new instructions plus one inline tool. -/
def sampleParams : SessionUpdateParams where
  instructions := some "Be brief"
  tools := some [sampleTool2]

/-- C6 witness: on a connected default client, the sample update overwrites
`instructions`, keeps `voice`, and sends one `session.update` whose tool
list is the decorated inline tool. -/
theorem updateSession_merge_spec_witness :
    (updateSession connectedState sampleParams).state.sessionConfig.instructions =
        "Be brief" ∧
      (updateSession connectedState sampleParams).state.sessionConfig.voice =
        "alloy" ∧
      (updateSession connectedState sampleParams).res = Except.ok true ∧
      (updateSession connectedState sampleParams).sent =
        [Command.sessionUpdate
          { defaultSessionConfig with
            instructions := "Be brief"
            tools := [withFunctionType sampleTool2] }] := by
  have h := updateSession_merge_spec connectedState sampleParams
  have hok := h.2.2.2.2.2.2.2.2.2.2.2.2.1 (fun t _ => rfl)
  exact ⟨h.2.2.1, h.2.2.2.1, hok.1, hok.2⟩

/-- The outbound trace of `createResponse` has exactly two possible shapes. -/
theorem createResponse_sent_shape (st : ClientState) :
    (createResponse st).sent =
        [Command.inputAudioBufferCommit, Command.responseCreate] ∨
      (createResponse st).sent = [Command.responseCreate] := by
  unfold createResponse
  split
  · exact Or.inl rfl
  · exact Or.inr rfl

/-- `createResponse` always sends exactly one `response.create`. -/
theorem createResponse_countP_responseCreate (st : ClientState) :
    (createResponse st).sent.countP isResponseCreate = 1 := by
  rcases createResponse_sent_shape st with h | h <;> rw [h] <;> rfl

/-- `createResponse` never sends a `function_call_output` item. -/
theorem createResponse_countP_funcOutput (st : ClientState) :
    (createResponse st).sent.countP isFunctionCallOutputCreate = 0 := by
  rcases createResponse_sent_shape st with h | h <;> rw [h] <;> rfl

/-- After the encoding pass, an `input_audio` part never holds raw binary. -/
theorem encodeAudioContent_no_raw (c : ContentPart) :
    (encodeAudioContent c).type = ContentKind.input_audio →
      ∀ samples, (encodeAudioContent c).audio ≠ AudioField.raw samples := by
  by_cases ht : c.type = ContentKind.input_audio
  · intro _ samples
    unfold encodeAudioContent
    rw [if_pos ht]
    cases ha : c.audio <;> simp [ha]
  · intro htype
    unfold encodeAudioContent at htype
    rw [if_neg ht] at htype
    exact absurd htype ht

/-- C7: `sendUserMessageContent` base64-encodes every raw input-audio part,
sends a `conversation.item.create` user message exactly when the content
list is non-empty, and requests a response unconditionally, returning
`true`. -/
theorem sendUserMessageContent_spec (st : ClientState)
    (content : List ContentPart) :
    (content ≠ [] →
      (sendUserMessageContent st content).sent =
        Command.conversationItemCreate
            (OutboundItem.message Role.user (content.map encodeAudioContent)) ::
          (createResponse st).sent) ∧
    (content = [] →
      (sendUserMessageContent st content).sent = (createResponse st).sent) ∧
    (∀ c ∈ content.map encodeAudioContent, c.type = ContentKind.input_audio →
      ∀ samples, c.audio ≠ AudioField.raw samples) ∧
    (sendUserMessageContent st content).sent.countP isResponseCreate = 1 ∧
    (sendUserMessageContent st content).res = Except.ok true := by
  refine ⟨?_, ?_, ?_, ?_, rfl⟩
  · intro hne
    unfold sendUserMessageContent
    rw [if_pos (fun h0 => hne (List.length_eq_zero.mp h0))]
    rfl
  · intro heq
    subst heq
    rfl
  · intro c hc htype samples
    rcases List.mem_map.mp hc with ⟨c0, _, rfl⟩
    exact encodeAudioContent_no_raw c0 htype samples
  · unfold sendUserMessageContent
    by_cases hne : content.length ≠ 0
    · rw [if_pos hne]
      simp [List.countP_cons, isResponseCreate,
        createResponse_countP_responseCreate]
    · rw [if_neg hne]
      simp [createResponse_countP_responseCreate]

/-- A content list with a text part and a raw-audio part. -/
def sampleContent : List ContentPart :=
  [{ type := ContentKind.input_text, text := some "hello" },
   { type := ContentKind.input_audio, audio := AudioField.raw [1, 2] }]

/-- C7 witness: sending the sample content emits one user item-create whose
audio part is base64-encoded, followed by the response-create. -/
theorem sendUserMessageContent_spec_witness :
    (sendUserMessageContent baseState sampleContent).sent =
        [Command.conversationItemCreate (OutboundItem.message Role.user
          [{ type := ContentKind.input_text, text := some "hello" },
           { type := ContentKind.input_audio, audio := AudioField.b64 "1,2" }]),
         Command.responseCreate] ∧
      (sendUserMessageContent baseState sampleContent).res = Except.ok true := by
  have h := sendUserMessageContent_spec baseState sampleContent
  refine ⟨?_, h.2.2.2.2⟩
  rw [h.1 (by simp [sampleContent])]
  rfl

/-- C3: when an `output_item.done` event yields a completed item carrying a
tool descriptor, the orchestrator parses the arguments, invokes the
registered handler (a missing handler becomes an error payload, not a thrown
fault), and in every outcome sends exactly one `function_call_output`
item-create followed by exactly one `response.create`. -/
theorem onOutputItemDone_tool_flow (parse : String → Except String Json)
    (strf : Json → String) (st : ClientState) (item : Item)
    (tool : FormattedTool)
    (_hstatus : item.status = ItemStatus.completed)
    (htool : item.formattedTool = some tool) :
    (∃ out, (onOutputItemDone parse strf st item).sent =
        Command.conversationItemCreate
            (OutboundItem.functionCallOutput tool.call_id out) ::
          (createResponse st).sent) ∧
    (onOutputItemDone parse strf st item).sent.countP
        isFunctionCallOutputCreate = 1 ∧
    (onOutputItemDone parse strf st item).sent.countP isResponseCreate = 1 ∧
    (∀ args, parse tool.arguments = Except.ok args →
      lookupTool st.tools tool.name = none →
      (onOutputItemDone parse strf st item).sent.head? =
        some (errorOutputCmd strf tool
          ("Tool \"" ++ tool.name ++ "\" has not been added"))) ∧
    (∀ args tc result, parse tool.arguments = Except.ok args →
      lookupTool st.tools tool.name = some tc →
      tc.handler args = Except.ok result →
      (onOutputItemDone parse strf st item).sent.head? =
        some (Command.conversationItemCreate
          (OutboundItem.functionCallOutput tool.call_id (strf result)))) ∧
    (∀ args tc msg, parse tool.arguments = Except.ok args →
      lookupTool st.tools tool.name = some tc →
      tc.handler args = Except.error msg →
      (onOutputItemDone parse strf st item).sent.head? =
        some (errorOutputCmd strf tool msg)) ∧
    (∀ msg, parse tool.arguments = Except.error msg →
      (onOutputItemDone parse strf st item).sent.head? =
        some (errorOutputCmd strf tool msg)) := by
  have hcall : onOutputItemDone parse strf st item = callTool parse strf st tool := by
    unfold onOutputItemDone
    rw [htool]
  have hshape : ∃ out, (callTool parse strf st tool).sent =
      Command.conversationItemCreate
          (OutboundItem.functionCallOutput tool.call_id out) ::
        (createResponse st).sent := by
    cases hp : parse tool.arguments with
    | error msg =>
      refine ⟨strf (Json.obj [("error", Json.str msg)]), ?_⟩
      simp [callTool, hp, errorOutputCmd]
    | ok args =>
      cases hl : lookupTool st.tools tool.name with
      | none =>
        refine ⟨strf (Json.obj [("error",
          Json.str ("Tool \"" ++ tool.name ++ "\" has not been added"))]), ?_⟩
        simp [callTool, hp, hl, errorOutputCmd]
      | some tc =>
        cases hh : tc.handler args with
        | ok result =>
          refine ⟨strf result, ?_⟩
          simp [callTool, hp, hl, hh]
        | error msg =>
          refine ⟨strf (Json.obj [("error", Json.str msg)]), ?_⟩
          simp [callTool, hp, hl, hh, errorOutputCmd]
  rcases hshape with ⟨out, hs⟩
  refine ⟨⟨out, by rw [hcall, hs]⟩, ?_, ?_, ?_, ?_, ?_, ?_⟩
  · rw [hcall, hs]
    simp [List.countP_cons, isFunctionCallOutputCreate,
      createResponse_countP_funcOutput]
  · rw [hcall, hs]
    simp [List.countP_cons, isResponseCreate, createResponse_countP_responseCreate]
  · intro args hp hl
    rw [hcall]
    unfold callTool
    simp only [hp, hl]
    rfl
  · intro args tc result hp hl hh
    rw [hcall]
    unfold callTool
    simp only [hp, hl, hh]
    rfl
  · intro args tc msg hp hl hh
    rw [hcall]
    unfold callTool
    simp only [hp, hl, hh]
    rfl
  · intro msg hp
    rw [hcall]
    unfold callTool
    simp only [hp]
    rfl

/-- A concrete stand-in for `JSON.parse` in the C3 witness. -/
def sampleParse : String → Except String Json :=
  fun s => Except.ok (Json.str s)

/-- A concrete stand-in for `JSON.stringify` in the C3 witness. -/
def sampleStringify : Json → String :=
  fun j =>
    match j with
    | Json.str s => s
    | _ => "?"

/-- A completed function-call item whose formatted view carries a tool
descriptor for the registered sample tool. -/
def toolCallItem : Item where
  id := "item_5"
  type := ItemKind.function_call
  status := ItemStatus.completed
  formattedTool := some { name := "get_weather", call_id := "call_1", arguments := "args" }

/-- C3 witness: on the client with the sample tool registered, the completed
tool-call item triggers one function-call-output item-create with the
handler result, then one response-create. -/
theorem onOutputItemDone_tool_flow_witness :
    (onOutputItemDone sampleParse sampleStringify toolState toolCallItem).sent.head? =
        some (Command.conversationItemCreate
          (OutboundItem.functionCallOutput "call_1" "ok")) ∧
      (onOutputItemDone sampleParse sampleStringify toolState
          toolCallItem).sent.countP isResponseCreate = 1 := by
  have h := onOutputItemDone_tool_flow sampleParse sampleStringify toolState
    toolCallItem { name := "get_weather", call_id := "call_1", arguments := "args" }
    rfl rfl
  exact ⟨h.2.2.2.2.1 (Json.str "args") ⟨sampleTool, sampleHandler⟩
    (Json.str "ok") rfl rfl rfl, h.2.2.1⟩

/-- `cancelResponse` never mutates the client state. -/
theorem cancelResponse_state (st : ClientState) (id : String) (sc : Nat) :
    (cancelResponse st id sc).state = st := by
  unfold cancelResponse
  repeat' split
  all_goals rfl

/-- `removeTool` leaves the input audio buffer alone. -/
theorem removeTool_buffer (st : ClientState) (name : String) :
    (removeTool st name).state.inputAudioBuffer = st.inputAudioBuffer := by
  unfold removeTool
  split <;> rfl

/-- `addTool` leaves the input audio buffer alone. -/
theorem addTool_buffer (st : ClientState) (d : Option ToolDefinition)
    (h : HandlerArg) :
    (addTool st d h).state.inputAudioBuffer = st.inputAudioBuffer := by
  cases d with
  | none => rfl
  | some dd =>
    simp only [addTool]
    split
    · rfl
    · split
      · rfl
      · cases h with
        | notFunc => rfl
        | func f => simp [updateSession_state]

/-- The buffer after `createResponse`: emptied on the commit path, untouched
otherwise. -/
theorem createResponse_buffer (st : ClientState) :
    (createResponse st).state.inputAudioBuffer = st.inputAudioBuffer ∨
      (createResponse st).state.inputAudioBuffer = [] := by
  unfold createResponse
  split
  · exact Or.inr rfl
  · exact Or.inl rfl

/-- C8 counterexample: `disconnect` does not reset the Input Audio Buffer;
on a client with staged samples the buffer survives disconnection intact. -/
theorem disconnect_keeps_inputAudioBuffer_cex :
    (disconnect stagedAudioState).inputAudioBuffer = [1, 2, 3] :=
  rfl

/-- C8 (amended): the Input Audio Buffer is reset to empty on every commit
(the committing path of `createResponse`) and on every session reset
(`_resetConfig`, reached through `reset()`); `disconnect` alone leaves it
unchanged; and across every public operation it only ever stays, grows by a
suffix, or is reset to empty. -/
theorem inputAudioBuffer_reset_and_growth :
    (∀ st : ClientState, getTurnDetectionType st = none →
      st.inputAudioBuffer ≠ [] →
      (createResponse st).state.inputAudioBuffer = []) ∧
    (∀ st : ClientState, (resetConfig st).inputAudioBuffer = [] ∧
      (resetClient st).inputAudioBuffer = []) ∧
    (∀ st : ClientState, (disconnect st).inputAudioBuffer = st.inputAudioBuffer) ∧
    (∀ (op : ClientOp) (st : ClientState),
      (applyOp op st).inputAudioBuffer = st.inputAudioBuffer ∨
        (∃ b, (applyOp op st).inputAudioBuffer = st.inputAudioBuffer ++ b) ∨
        (applyOp op st).inputAudioBuffer = []) := by
  refine ⟨?_, fun st => ⟨rfl, rfl⟩, fun st => rfl, ?_⟩
  · intro st h1 h2
    unfold createResponse
    rw [if_pos ⟨h1, (byteLength_pos_iff st.inputAudioBuffer).mpr h2⟩]
  · intro op st
    cases op with
    | createResponseOp =>
      rcases createResponse_buffer st with h | h
      · exact Or.inl h
      · exact Or.inr (Or.inr h)
    | cancelResponseOp id sc =>
      exact Or.inl (by rw [applyOp, cancelResponse_state])
    | addToolOp d h => exact Or.inl (addTool_buffer st d h)
    | removeToolOp name => exact Or.inl (removeTool_buffer st name)
    | deleteItemOp id => exact Or.inl rfl
    | updateSessionOp p => exact Or.inl (by rw [applyOp, updateSession_state])
    | sendUserMessageContentOp content =>
      rcases createResponse_buffer st with h | h
      · exact Or.inl h
      · exact Or.inr (Or.inr h)
    | appendInputAudioOp buf =>
      simp only [applyOp]
      unfold appendInputAudio
      split
      · exact Or.inr (Or.inl ⟨buf, rfl⟩)
      · exact Or.inl rfl
    | disconnectOp => exact Or.inl rfl
    | resetOp => exact Or.inr (Or.inr rfl)
    | connectOp =>
      simp only [applyOp]
      unfold connect
      split
      · exact Or.inl rfl
      · exact Or.inl (by rw [updateSession_state])
    | callToolOp parse strf tool =>
      rcases createResponse_buffer st with h | h
      · exact Or.inl h
      · exact Or.inr (Or.inr h)

/-- C8 witness: committing the staged audio empties the buffer, while a bare
disconnect keeps it. -/
theorem inputAudioBuffer_reset_and_growth_witness :
    (createResponse stagedAudioState).state.inputAudioBuffer = [] ∧
      (disconnect stagedAudioState).inputAudioBuffer =
        stagedAudioState.inputAudioBuffer :=
  ⟨inputAudioBuffer_reset_and_growth.1 stagedAudioState rfl (by simp [stagedAudioState]),
   inputAudioBuffer_reset_and_growth.2.2.1 stagedAudioState⟩

end Realtime
